import Mathlib

/-!
Verification development for the `python-repo-template` utilities
(`utils/configs.py`, `utils/configs_provider.py`, `utils/experiment_logger.py`).

The Python modules are shallowly embedded: each method becomes a pure Lean
function from an explicit description of its inputs (file paths together with
the filesystem facts the method queries about them, configuration records) to
the ordered list of observable effects it performs (tracking-backend calls and
logger output), paired with an optional raised error.  Machine-level details
that the claims do not touch (actual YAML parsing, pandas internals, the
network) stay abstract: a file is described by the attributes the code reads
(`exists()`, `suffix`, `name`, `parent.name`, `str(path)`, its text content,
and the outcome of `pandas.read_json`).
-/

set_option autoImplicit false

/-- A Python runtime value as far as `MlflowLogger.log_dict` can distinguish
them.  `float` and `other` are abstracted by their textual representation. -/
inductive PyValue where
  | bool (b : Bool)
  | int (n : Int)
  | float (r : String)
  | str (s : String)
  | pyNone
  | other (jsonRepr : String)
deriving DecidableEq, Repr

/-- The error kinds relevant to the embedded code.  `configurationError` and
`runNotActiveError` are named by the specification; no class of either name
exists anywhere in the sources, the constructors are present only so that the
specification claims about them can be stated and compared with what the code
actually raises. -/
inductive PyError where
  | fileNotFoundError (msg : String)
  | valueError (msg : String)
  | attributeError (msg : String)
  | pandasError (msg : String)
  | configurationError (msg : String)
  | runNotActiveError (msg : String)
deriving DecidableEq, Repr

/-- One observable effect of the logger: a call into the tracking backend or a
line of logger output. -/
inductive LogEvent where
  | warning (msg : String)
  | error (msg : String)
  | info (msg : String)
  | logMetric (key : String) (value : PyValue)
  | logParam (key : String) (value : String)
  | logTable (artifactFile : String)
  | logArtifact (localPath : String) (artifactPath : String)
  | logTextArtifact (fileName : String) (artifactPath : String) (content : String)
  | logInputDataset (name : String) (source : String)
  | setTrackingUri (uri : String)
  | enableAsyncLogging
  | openaiAutolog
  | loadDotenv
  | endRun
deriving DecidableEq, Repr

/-- A pandas row rendered as `Series.to_dict()`: an ordered key/value list. -/
abbrev PyDict := List (String × PyValue)

/-- Python `isinstance(value, (int, float))`.  In Python `bool` is a subclass
of `int`, so boolean values satisfy this check. -/
def isinstance_int_float : PyValue → Bool
  | PyValue.bool _ => true
  | PyValue.int _ => true
  | PyValue.float _ => true
  | _ => false

/-- Python `json.dumps` restricted to the values of `PyValue`. -/
def jsonDumps : PyValue → String
  | PyValue.bool true => "true"
  | PyValue.bool false => "false"
  | PyValue.int n => toString n
  | PyValue.float r => r
  | PyValue.str s => "\"" ++ s ++ "\""
  | PyValue.pyNone => "null"
  | PyValue.other r => r

/-- The branch taken by `MlflowLogger.log_dict` for a single dictionary entry:
numeric values (including booleans, via the `isinstance` subtyping above)
become metrics, strings become parameters, everything else is serialized with
`json.dumps` and becomes a parameter. -/
def logDictEntry (key : String) (value : PyValue) : LogEvent :=
  if isinstance_int_float value then LogEvent.logMetric key value
  else
    match value with
    | PyValue.str s => LogEvent.logParam key s
    | v => LogEvent.logParam key (jsonDumps v)

/-- `MlflowLogger.log_dict`: iterate over the dictionary entries in order and
emit one backend call per entry. -/
def log_dict (data : List (String × PyValue)) : List LogEvent :=
  data.map (fun kv => logDictEntry kv.1 kv.2)

/-- One input path of `log_experiment_data`, described by exactly the
attributes the method reads: `Path.exists()`, `Path.suffix`, `Path.name`,
`Path.parent.name`, `str(path)`, the file text content (read by the template
branch), and the outcome of `pandas.read_json` (`none` models the read
raising; the exception text is elided from the logged error message). -/
structure DataPath where
  exists_ : Bool
  suffix : String
  name : String
  parentName : String
  pathStr : String
  content : String
  readJson : Option (List PyDict)
deriving DecidableEq, Repr

/-- `os.path.join` for the relative POSIX paths the logger builds. -/
def joinPath (a b : String) : String := a ++ "/" ++ b

/-- Python `str.lower()`, applied character by character (the suffixes the
code compares contain only ASCII). -/
def pyLower (s : String) : String := String.mk (s.data.map Char.toLower)

/-- `MlflowLogger._log_jinja_templates`: re-check existence, then copy the
file content verbatim into a `<name>.txt` text artifact and log it under the
artifact subdirectory named after the parent directory. -/
def log_jinja_templates (artifact_path : String) (p : DataPath) : List LogEvent :=
  if p.exists_ then
    [LogEvent.info ("Logging template from: " ++ p.pathStr),
     LogEvent.logTextArtifact (p.name ++ ".txt") (joinPath artifact_path p.parentName) p.content]
  else []

/-- One iteration of the loop body of `MlflowLogger.log_experiment_data`: the
events it emits, paired with `true` when the body executes `return` (ending
the whole method, not just this iteration).  The source returns both after
logging a single-row JSON table plus its fields, and in the `.jinja2` branch
(`return self._log_jinja_templates(...)`). -/
def processOne (artifact_path : String) (p : DataPath) : List LogEvent × Bool :=
  if !p.exists_ then
    ([LogEvent.warning ("Data path " ++ p.pathStr ++ " does not exist, skipping logging.")], false)
  else if pyLower p.suffix = ".json" then
    match p.readJson with
    | some [row] =>
      (LogEvent.logTable p.name :: log_dict row, true)
    | some _ =>
      ([LogEvent.logTable p.name,
        LogEvent.logArtifact p.pathStr (joinPath artifact_path p.parentName),
        LogEvent.info ("Logged artifact: " ++ p.pathStr)], false)
    | none =>
      ([LogEvent.error ("Error reading JSON file " ++ p.pathStr),
        LogEvent.logArtifact p.pathStr (joinPath artifact_path p.parentName),
        LogEvent.info ("Logged artifact: " ++ p.pathStr)], false)
  else if pyLower p.suffix = ".jinja2" then
    (log_jinja_templates artifact_path p, true)
  else
    ([LogEvent.logArtifact p.pathStr (joinPath artifact_path p.parentName),
      LogEvent.info ("Logged artifact: " ++ p.pathStr)], false)

/-- `MlflowLogger.log_experiment_data`: fold the loop body over the path list,
stopping as soon as an iteration executes `return`. -/
def log_experiment_data (artifact_path : String) : List DataPath → List LogEvent
  | [] => []
  | p :: rest =>
    if (processOne artifact_path p).2 then (processOne artifact_path p).1
    else (processOne artifact_path p).1 ++ log_experiment_data artifact_path rest

/-- The events emitted by a list of loop iterations, ignoring early returns;
used to describe a prefix of iterations none of which returns early. -/
def eventsOf (artifact_path : String) : List DataPath → List LogEvent
  | [] => []
  | p :: rest => (processOne artifact_path p).1 ++ eventsOf artifact_path rest

/-- One input path of `MlflowLogger.log_input`, described by the attributes
the method reads: `os.path.exists`, `Path.suffix`, `Path.stem`, `str(path)`,
and the outcome of the `pandas.read_*` call (`none` models the read raising). -/
structure InputPath where
  exists_ : Bool
  suffix : String
  stem : String
  pathStr : String
  rows : Option (List PyDict)
deriving DecidableEq, Repr

/-- The `pandas.read_json` / `read_csv` / `read_parquet` call inside
`log_input`, abstracted to its outcome on this file. -/
def pdRead (p : InputPath) : Except PyError (List PyDict) :=
  match p.rows with
  | some t => Except.ok t
  | none => Except.error (PyError.pandasError ("pandas failed to read " ++ p.pathStr))

/-- `MlflowLogger.log_input`: raise `FileNotFoundError` for a missing path,
pick the reader by the lowercased suffix, raise `ValueError` for any other
suffix, and otherwise wrap the parsed table into a dataset named after the
file stem with the path string as its source and log it.  The result pairs
the events emitted before any raise with the raised error, if any. -/
def log_input (p : InputPath) : List LogEvent × Option PyError :=
  if !p.exists_ then
    ([], some (PyError.fileNotFoundError ("The input path " ++ p.pathStr ++ " does not exist.")))
  else
    let evs := [LogEvent.info ("Loading input data from " ++ p.pathStr)]
    let format := pyLower p.suffix
    let input_data : Except PyError (List PyDict) :=
      if format = ".json" then pdRead p
      else if format = ".csv" then pdRead p
      else if format = ".parquet" then pdRead p
      else
        Except.error (PyError.valueError
          ("Unsupported file format: " ++ format ++ ". Only .json, .csv, and .parquet are supported."))
    match input_data with
    | Except.error e => (evs, some e)
    | Except.ok _ => (evs ++ [LogEvent.logInputDataset p.stem p.pathStr], none)

/-- A pydantic-settings source provider, one constructor per argument of
`settings_customise_sources` plus the optionally appended YAML source. -/
inductive SettingsSource where
  | initSettings
  | envSettings
  | dotenvSettings
  | fileSecretSettings
  | yamlSettings (yamlFile : String) (encoding : String)
deriving DecidableEq, Repr

/-- The two `model_config` keys that `YamlBaseSettings` reads, as optional
entries of the configuration dictionary. -/
structure SettingsConfigDict where
  yaml_file : Option String
  yaml_file_encoding : Option String
deriving DecidableEq, Repr

/-- `YamlBaseSettings.settings_customise_sources`: the four standard sources
in their fixed order, with a YAML source appended when
`model_config.get("yaml_file", None)` is truthy (in Python both `None` and the
empty string are falsy). -/
def settings_customise_sources (model_config : SettingsConfigDict) : List SettingsSource :=
  let sources := [SettingsSource.initSettings, SettingsSource.envSettings,
                  SettingsSource.dotenvSettings, SettingsSource.fileSecretSettings]
  match model_config.yaml_file with
  | none => sources
  | some yaml_path =>
    if yaml_path = "" then sources
    else sources ++ [SettingsSource.yamlSettings yaml_path
                      (model_config.yaml_file_encoding.getD "utf-8")]

/-- Field resolution as documented by pydantic-settings (the external library
consuming the tuple returned above): sources are consulted in tuple order and
the first source defining the key supplies the value. -/
def resolveSetting (sources : List SettingsSource)
    (vals : SettingsSource → String → Option String) (key : String) : Option String :=
  match sources with
  | [] => none
  | s :: rest =>
    match vals s key with
    | some v => some v
    | none => resolveSetting rest vals key

/-- The `MlflowLoggerConfig` record from `utils/configs.py`.  URL fields are
abstracted to their string rendering; `none` models a field left at its `None`
default.  The Python field named `instance` is rendered `inst` here because
`instance` is reserved in Lean. -/
structure MlflowLoggerConfig where
  tracking_uri : Option String
  remote_tracking_uri : Option String
  inst : String
  remote_flag : Bool
  trace : Bool
  templates_path : String
  artifact_path : String
  run_name : Option String
deriving DecidableEq, Repr

/-- The attribute access `url.unicode_string()` on an `AnyHttpUrl | None`
field: on `None` Python raises `AttributeError`. -/
def unicode_string : Option String → Except PyError String
  | none => Except.error (PyError.attributeError "NoneType object has no attribute unicode_string")
  | some u => Except.ok u

/-- The trailing calls of `MlflowLogger._setup` after the URI is resolved:
set the tracking URI, enable async logging, optionally enable OpenAI
autologging, and log the final info line. -/
def setup_tail (cfg : MlflowLoggerConfig) (uri : String) : List LogEvent :=
  [LogEvent.setTrackingUri uri, LogEvent.enableAsyncLogging] ++
  (if cfg.trace then [LogEvent.openaiAutolog, LogEvent.info "MLflow OpenAI autologging enabled."]
   else []) ++
  [LogEvent.info "MLflow logging enabled with async mode"]

/-- `MlflowLogger._setup`: load dotenv, then resolve the tracking endpoint
from `remote_tracking_uri` when `remote_flag` is set and from `tracking_uri`
otherwise, calling `.unicode_string()` on the selected field.  The result
pairs the emitted events with the resolved URI or the raised error. -/
def mlflow_setup (cfg : MlflowLoggerConfig) : List LogEvent × Except PyError String :=
  if cfg.remote_flag then
    match unicode_string cfg.remote_tracking_uri with
    | Except.error e => ([LogEvent.loadDotenv], Except.error e)
    | Except.ok uri =>
      (LogEvent.loadDotenv ::
         LogEvent.info ("Using remote MLflow tracking URI: " ++ uri) :: setup_tail cfg uri,
       Except.ok uri)
  else
    match unicode_string cfg.tracking_uri with
    | Except.error e => ([LogEvent.loadDotenv], Except.error e)
    | Except.ok uri =>
      (LogEvent.loadDotenv ::
         LogEvent.info ("Using local MLflow tracking URI: " ++ uri) :: setup_tail cfg uri,
       Except.ok uri)

/-- Python truthiness of an `Optional[bool]` return value: `None` is falsy. -/
def truthyOptBool : Option Bool → Bool
  | none => false
  | some b => b

/-- The events emitted by `MlflowLogger.__exit__`: two info lines and the
unconditional `mlflow.end_run()` call. -/
def MlflowLogger_exit_events (runId : String) : List LogEvent :=
  [LogEvent.info "Result logged to MLflow.",
   LogEvent.info ("MLflow run ID: " ++ runId),
   LogEvent.endRun]

/-- The value returned by `MlflowLogger.__exit__`: the method is annotated
`-> None` and falls off its body, so it returns `None`. -/
def MlflowLogger_exit_return : Option Bool := none

/-- The Python `with` statement applied to an `MlflowLogger` scope: after the
body finishes (normally, with `bodyError = none`, or by raising `some e`),
`__exit__` always runs; the exception re-raises exactly when the value
`__exit__` returned is falsy.  `enterEvents` abstracts the events of
`__enter__` and `bodyEvents` those of the scope body before any raise. -/
def withMlflowScope (runId : String) (enterEvents bodyEvents : List LogEvent)
    (bodyError : Option PyError) : List LogEvent × Option PyError :=
  (enterEvents ++ bodyEvents ++ MlflowLogger_exit_events runId,
   match bodyError with
   | none => none
   | some e => if truthyOptBool MlflowLogger_exit_return then none else some e)

/-- `MlflowLogger.log_dict` viewed together with the ambient run state: the
method body contains no check of whether a run is active, so the call succeeds
and emits the same events whatever `runActive` is. -/
def log_dict_called_with_run_state (_runActive : Bool) (data : List (String × PyValue)) :
    Except PyError (List LogEvent) :=
  Except.ok (log_dict data)

/-- A provider object as far as identity claims go: the Python `id()` of the
provider itself and of the two configuration objects it constructed. -/
structure ProviderInstance where
  objId : Nat
  globalConfigId : Nat
  mlflowConfigId : Nat
deriving DecidableEq, Repr

/-- The process-wide cache kept by the singleton metaclass, plus a supply of
fresh object identities. -/
structure SingletonState where
  cached : Option ProviderInstance
  nextObjId : Nat
deriving DecidableEq, Repr

/-- `BaseConfigProvider.__init__` from `utils/configs_provider.py`: constructs
one fresh `GlobalConfig` and one fresh `MlflowLoggerConfig`, stored on the
fresh provider object. -/
def BaseConfigProvider_init (objId : Nat) : ProviderInstance :=
  ⟨objId, objId + 1, objId + 2⟩

/-- Modelled from the spec: `SingletonMeta` (imported from `utils.singleton`,
a module not present in the sources) makes class construction return the
cached instance when one exists, and otherwise run `__init__` once and cache
the resulting instance for the rest of the process. -/
def constructProvider (s : SingletonState) : ProviderInstance × SingletonState :=
  match s.cached with
  | some inst => (inst, s)
  | none =>
    (BaseConfigProvider_init s.nextObjId,
     ⟨some (BaseConfigProvider_init s.nextObjId), s.nextObjId + 3⟩)

/-- A concrete valuation for the precedence witness: the environment source
and the YAML source both define `log_level`, nothing else defines anything. -/
def envYamlVals : SettingsSource → String → Option String
  | SettingsSource.envSettings, "log_level" => some "INFO"
  | SettingsSource.yamlSettings _ _, "log_level" => some "DEBUG"
  | _, _ => none

/-- Processing a prefix of paths none of which triggers the early `return`
just concatenates their events in front of the rest of the loop. -/
theorem log_experiment_data_append (artifact_path : String) (pre l : List DataPath)
    (h : ∀ q ∈ pre, (processOne artifact_path q).2 = false) :
    log_experiment_data artifact_path (pre ++ l) =
      eventsOf artifact_path pre ++ log_experiment_data artifact_path l := by
  induction pre with
  | nil => simp [eventsOf]
  | cons q qs ih =>
    have hq : (processOne artifact_path q).2 = false := h q (by simp)
    have hqs : ∀ r ∈ qs, (processOne artifact_path r).2 = false :=
      fun r hr => h r (by simp [hr])
    simp [log_experiment_data, eventsOf, hq, ih hqs]

/-- C1: in `log_experiment_data`, once processing reaches an existing path
with (lowercased) suffix `.json` whose parse succeeds with exactly one row,
the method logs the table artifact, logs that row via `log_dict`, and returns
at once: the emitted events do not depend on the remaining paths, which are
never processed. -/
theorem single_row_json_logs_and_stops (artifact_path : String) (pre : List DataPath)
    (p : DataPath) (row : PyDict) (rest : List DataPath)
    (hpre : ∀ q ∈ pre, (processOne artifact_path q).2 = false)
    (hex : p.exists_ = true) (hsuf : pyLower p.suffix = ".json")
    (hjson : p.readJson = some [row]) :
    log_experiment_data artifact_path (pre ++ p :: rest) =
      eventsOf artifact_path pre ++ LogEvent.logTable p.name :: log_dict row := by
  rw [log_experiment_data_append artifact_path pre (p :: rest) hpre]
  simp [log_experiment_data, processOne, hex, hsuf, hjson]

/-- Witness for C1 at a concrete one-record JSON file followed by a further
path, which is dropped. -/
theorem single_row_json_logs_and_stops_witness :
    log_experiment_data "artifacts"
        ([] ++ (⟨true, ".json", "a.json", "data", "data/a.json", "",
                 some [[("accuracy", PyValue.int 1)]]⟩ : DataPath) ::
          [⟨true, ".csv", "b.csv", "data", "data/b.csv", "", none⟩]) =
      eventsOf "artifacts" [] ++
        LogEvent.logTable "a.json" :: log_dict [("accuracy", PyValue.int 1)] :=
  single_row_json_logs_and_stops "artifacts" [] _ [("accuracy", PyValue.int 1)] _
    (by simp) rfl (by decide) rfl

/-- C8: a nonexistent path reached by `log_experiment_data` produces exactly
one warning event and processing continues with the remaining paths; nothing
is raised (the loop body is total, the result type has no error channel). -/
theorem missing_path_warns_and_continues (artifact_path : String) (pre : List DataPath)
    (p : DataPath) (rest : List DataPath)
    (hpre : ∀ q ∈ pre, (processOne artifact_path q).2 = false)
    (hex : p.exists_ = false) :
    log_experiment_data artifact_path (pre ++ p :: rest) =
      eventsOf artifact_path pre ++
        LogEvent.warning ("Data path " ++ p.pathStr ++ " does not exist, skipping logging.") ::
        log_experiment_data artifact_path rest := by
  rw [log_experiment_data_append artifact_path pre (p :: rest) hpre]
  simp [log_experiment_data, processOne, hex]

/-- Witness for C8 at a concrete missing path followed by an existing one,
which is still processed. -/
theorem missing_path_warns_and_continues_witness :
    log_experiment_data "artifacts"
        ([] ++ (⟨false, ".csv", "gone.csv", "data", "data/gone.csv", "", none⟩ : DataPath) ::
          [⟨true, ".txt", "c.txt", "data", "data/c.txt", "", none⟩]) =
      eventsOf "artifacts" [] ++
        LogEvent.warning "Data path data/gone.csv does not exist, skipping logging." ::
        log_experiment_data "artifacts" [⟨true, ".txt", "c.txt", "data", "data/c.txt", "", none⟩] :=
  missing_path_warns_and_continues "artifacts" [] _ _ (by simp) rfl

/-- C7 counterexample: a `.jinja2` path followed by an existing `.csv` path.
Alone, the `.csv` path is logged as a generic artifact; behind the template
path it produces no events at all, because the `.jinja2` branch executes
`return self._log_jinja_templates(...)`, ending the whole method. -/
theorem jinja_early_return_counterexample :
    log_experiment_data "artifacts"
        [⟨true, ".jinja2", "prompt.jinja2", "templates", "templates/prompt.jinja2",
          "Hello name", none⟩,
         ⟨true, ".csv", "b.csv", "data", "data/b.csv", "", none⟩] =
      [LogEvent.info "Logging template from: templates/prompt.jinja2",
       LogEvent.logTextArtifact "prompt.jinja2.txt" "artifacts/templates" "Hello name"] ∧
    log_experiment_data "artifacts"
        [⟨true, ".csv", "b.csv", "data", "data/b.csv", "", none⟩] =
      [LogEvent.logArtifact "data/b.csv" "artifacts/data",
       LogEvent.info "Logged artifact: data/b.csv"] := by
  exact ⟨by decide, by decide⟩

/-- C7 as amended: an existing `.jinja2` path reached by the loop is copied
verbatim into a `.txt` text artifact and logged, with no plain-artifact
fallthrough — and the method then returns immediately, emitting events that
do not depend on the remaining paths, which are never processed. -/
theorem jinja_template_logged_then_returns (artifact_path : String) (pre : List DataPath)
    (p : DataPath) (rest : List DataPath)
    (hpre : ∀ q ∈ pre, (processOne artifact_path q).2 = false)
    (hex : p.exists_ = true) (hsuf : pyLower p.suffix = ".jinja2") :
    log_experiment_data artifact_path (pre ++ p :: rest) =
      eventsOf artifact_path pre ++
        [LogEvent.info ("Logging template from: " ++ p.pathStr),
         LogEvent.logTextArtifact (p.name ++ ".txt")
           (joinPath artifact_path p.parentName) p.content] := by
  rw [log_experiment_data_append artifact_path pre (p :: rest) hpre]
  simp [log_experiment_data, processOne, log_jinja_templates, hex, hsuf]

/-- Witness for the amended C7 at a concrete template path followed by a
further path, which is dropped. -/
theorem jinja_template_logged_then_returns_witness :
    log_experiment_data "artifacts"
        ([] ++ (⟨true, ".jinja2", "prompt.jinja2", "templates", "templates/prompt.jinja2",
                 "Hello name", none⟩ : DataPath) ::
          [⟨true, ".csv", "b.csv", "data", "data/b.csv", "", none⟩]) =
      eventsOf "artifacts" [] ++
        [LogEvent.info "Logging template from: templates/prompt.jinja2",
         LogEvent.logTextArtifact "prompt.jinja2.txt" (joinPath "artifacts" "templates")
           "Hello name"] :=
  jinja_template_logged_then_returns "artifacts" [] _ _ (by simp) rfl (by decide)

/-- C2: for every way the scope body can end, the events of the scope contain
the `mlflow.end_run()` call (and `__exit__` itself performs it exactly once),
the overall outcome equals the body outcome — an in-flight exception always
re-propagates, never suppressed — and `__exit__` never returns `True`. -/
theorem run_close_unconditional (runId : String) (enterEvents bodyEvents : List LogEvent)
    (bodyError : Option PyError) :
    LogEvent.endRun ∈ (withMlflowScope runId enterEvents bodyEvents bodyError).1 ∧
    (withMlflowScope runId enterEvents bodyEvents bodyError).2 = bodyError ∧
    List.count LogEvent.endRun (MlflowLogger_exit_events runId) = 1 ∧
    MlflowLogger_exit_return ≠ some true := by
  refine ⟨?_, ?_, ?_, by simp [MlflowLogger_exit_return]⟩
  · simp [withMlflowScope, MlflowLogger_exit_events]
  · cases bodyError <;>
      simp [withMlflowScope, truthyOptBool, MlflowLogger_exit_return]
  · simp [MlflowLogger_exit_events, List.count_cons, List.count_nil]

/-- Witness for C2: a concrete body exception survives the scope exit. -/
theorem run_close_unconditional_witness :
    (withMlflowScope "rid" [] [] (some (PyError.valueError "boom"))).2 =
      some (PyError.valueError "boom") :=
  (run_close_unconditional "rid" [] [] (some (PyError.valueError "boom"))).2.1

/-- C4: `log_input` raises `FileNotFoundError` on a missing path; on an
existing path whose lowercased suffix is none of `.json`, `.csv`, `.parquet`
it raises a `ValueError` naming the unsupported extension; and on a readable
`.parquet` file it records an input dataset named after the file stem with the
input path as its source. -/
theorem log_input_errors_and_dataset (p : InputPath) :
    (p.exists_ = false →
      log_input p =
        ([], some (PyError.fileNotFoundError
          ("The input path " ++ p.pathStr ++ " does not exist.")))) ∧
    (p.exists_ = true → pyLower p.suffix ≠ ".json" → pyLower p.suffix ≠ ".csv" →
      pyLower p.suffix ≠ ".parquet" →
      log_input p =
        ([LogEvent.info ("Loading input data from " ++ p.pathStr)],
         some (PyError.valueError
           ("Unsupported file format: " ++ pyLower p.suffix ++
            ". Only .json, .csv, and .parquet are supported.")))) ∧
    (∀ t, p.exists_ = true → pyLower p.suffix = ".parquet" → p.rows = some t →
      log_input p =
        ([LogEvent.info ("Loading input data from " ++ p.pathStr),
          LogEvent.logInputDataset p.stem p.pathStr], none)) := by
  refine ⟨?_, ?_, ?_⟩
  · intro hex
    simp [log_input, hex]
  · intro hex h1 h2 h3
    simp [log_input, hex, h1, h2, h3]
  · intro t hex hsuf hrows
    have h1 : pyLower p.suffix ≠ ".json" := by rw [hsuf]; decide
    have h2 : pyLower p.suffix ≠ ".csv" := by rw [hsuf]; decide
    simp [log_input, pdRead, hex, h1, h2, hsuf, hrows]

/-- Witness for C4: the three branches at concrete inputs — a missing
`missing.csv`, an existing `x.txt`, and a readable `x.parquet`. -/
theorem log_input_errors_and_dataset_witness :
    log_input ⟨false, ".csv", "missing", "missing.csv", none⟩ =
      ([], some (PyError.fileNotFoundError "The input path missing.csv does not exist.")) ∧
    log_input ⟨true, ".txt", "x", "x.txt", some []⟩ =
      ([LogEvent.info "Loading input data from x.txt"],
       some (PyError.valueError
         "Unsupported file format: .txt. Only .json, .csv, and .parquet are supported.")) ∧
    log_input ⟨true, ".parquet", "x", "x.parquet", some [[("a", PyValue.int 1)]]⟩ =
      ([LogEvent.info "Loading input data from x.parquet",
        LogEvent.logInputDataset "x" "x.parquet"], none) := by
  refine ⟨?_, ?_, ?_⟩
  · exact (log_input_errors_and_dataset ⟨false, ".csv", "missing", "missing.csv", none⟩).1 rfl
  · exact (log_input_errors_and_dataset ⟨true, ".txt", "x", "x.txt", some []⟩).2.1 rfl
      (by decide) (by decide) (by decide)
  · exact (log_input_errors_and_dataset
      ⟨true, ".parquet", "x", "x.parquet", some [[("a", PyValue.int 1)]]⟩).2.2
      [[("a", PyValue.int 1)]] rfl (by decide) rfl

/-- C10: the Python `isinstance(value, (int, float))` test accepts booleans
(`bool` subclasses `int`), so `log_dict` records every boolean entry as a
metric, not as a parameter. -/
theorem bool_values_logged_as_metrics (data : List (String × PyValue)) (key : String)
    (b : Bool) :
    isinstance_int_float (PyValue.bool b) = true ∧
    logDictEntry key (PyValue.bool b) = LogEvent.logMetric key (PyValue.bool b) ∧
    ((key, PyValue.bool b) ∈ data →
      LogEvent.logMetric key (PyValue.bool b) ∈ log_dict data) := by
  refine ⟨rfl, rfl, ?_⟩
  intro hmem
  simp only [log_dict, List.mem_map]
  exact ⟨(key, PyValue.bool b), hmem, rfl⟩

/-- Witness for C10 at a concrete dictionary with a boolean entry. -/
theorem bool_values_logged_as_metrics_witness :
    LogEvent.logMetric "flag" (PyValue.bool true) ∈
      log_dict [("flag", PyValue.bool true), ("note", PyValue.str "x")] :=
  (bool_values_logged_as_metrics [("flag", PyValue.bool true), ("note", PyValue.str "x")]
    "flag" true).2.2 (by simp)

/-- C5 counterexample: a `log_dict` call made while no run is active succeeds
and issues its backend calls; it does not fail, in particular not with the
`RunNotActiveError` the specification names (no such class exists in the
sources, and the method checks nothing about the run state). -/
theorem log_dict_no_run_check_counterexample :
    log_dict_called_with_run_state false [("accuracy", PyValue.int 1)] =
      Except.ok [LogEvent.logMetric "accuracy" (PyValue.int 1)] := rfl

/-- C5 as amended: `log_dict` performs no run-activity check — it returns the
same successful result whatever the run state, and never raises
`RunNotActiveError`. -/
theorem log_dict_has_no_run_check (runActive : Bool) (data : List (String × PyValue)) :
    log_dict_called_with_run_state runActive data = Except.ok (log_dict data) ∧
    log_dict_called_with_run_state runActive data =
      log_dict_called_with_run_state true data ∧
    ∀ m, log_dict_called_with_run_state runActive data ≠
      Except.error (PyError.runNotActiveError m) := by
  refine ⟨rfl, rfl, ?_⟩
  intro m h
  exact Except.noConfusion h

/-- Witness for the amended C5 at a concrete dictionary and inactive run. -/
theorem log_dict_has_no_run_check_witness :
    log_dict_called_with_run_state false [("note", PyValue.str "x")] =
      Except.ok (log_dict [("note", PyValue.str "x")]) :=
  (log_dict_has_no_run_check false [("note", PyValue.str "x")]).1

/-- C6 counterexample: with `remote_flag` set and `remote_tracking_uri` left
at `None`, construction fails — but with an `AttributeError` from the
attribute access `None.unicode_string()`, not with the `ConfigurationError`
the claim names (no such class exists in the sources). -/
theorem setup_missing_url_counterexample :
    mlflow_setup ⟨none, none, "local", true, false, "templates", "artifacts", none⟩ =
      ([LogEvent.loadDotenv],
       Except.error (PyError.attributeError
         "NoneType object has no attribute unicode_string")) := rfl

/-- C6 as amended: at construction time the tracking endpoint is resolved as
`remote_tracking_uri` when `remote_flag` is true and as `tracking_uri`
otherwise, and when the selected URL is absent the construction fails with an
`AttributeError` (from calling `.unicode_string()` on `None`), not with a
`ConfigurationError`. -/
theorem setup_resolves_endpoint (cfg : MlflowLoggerConfig) :
    (cfg.remote_flag = true → ∀ u, cfg.remote_tracking_uri = some u →
      mlflow_setup cfg =
        (LogEvent.loadDotenv ::
           LogEvent.info ("Using remote MLflow tracking URI: " ++ u) :: setup_tail cfg u,
         Except.ok u)) ∧
    (cfg.remote_flag = false → ∀ u, cfg.tracking_uri = some u →
      mlflow_setup cfg =
        (LogEvent.loadDotenv ::
           LogEvent.info ("Using local MLflow tracking URI: " ++ u) :: setup_tail cfg u,
         Except.ok u)) ∧
    (cfg.remote_flag = true → cfg.remote_tracking_uri = none →
      mlflow_setup cfg =
        ([LogEvent.loadDotenv],
         Except.error (PyError.attributeError
           "NoneType object has no attribute unicode_string"))) ∧
    (cfg.remote_flag = false → cfg.tracking_uri = none →
      mlflow_setup cfg =
        ([LogEvent.loadDotenv],
         Except.error (PyError.attributeError
           "NoneType object has no attribute unicode_string"))) := by
  refine ⟨?_, ?_, ?_, ?_⟩
  · intro hflag u hu
    simp [mlflow_setup, unicode_string, hflag, hu]
  · intro hflag u hu
    simp [mlflow_setup, unicode_string, hflag, hu]
  · intro hflag hu
    simp [mlflow_setup, unicode_string, hflag, hu]
  · intro hflag hu
    simp [mlflow_setup, unicode_string, hflag, hu]

/-- Witness for the amended C6: both selection branches and one failure
branch at concrete configurations. -/
theorem setup_resolves_endpoint_witness :
    mlflow_setup ⟨some "http://localhost:5000/", some "http://remote:5000/", "remote",
        true, false, "templates", "artifacts", none⟩ =
      (LogEvent.loadDotenv ::
         LogEvent.info "Using remote MLflow tracking URI: http://remote:5000/" ::
         setup_tail ⟨some "http://localhost:5000/", some "http://remote:5000/", "remote",
           true, false, "templates", "artifacts", none⟩ "http://remote:5000/",
       Except.ok "http://remote:5000/") ∧
    mlflow_setup ⟨some "http://localhost:5000/", none, "local",
        false, false, "templates", "artifacts", none⟩ =
      (LogEvent.loadDotenv ::
         LogEvent.info "Using local MLflow tracking URI: http://localhost:5000/" ::
         setup_tail ⟨some "http://localhost:5000/", none, "local",
           false, false, "templates", "artifacts", none⟩ "http://localhost:5000/",
       Except.ok "http://localhost:5000/") ∧
    mlflow_setup ⟨none, none, "local", false, false, "templates", "artifacts", none⟩ =
      ([LogEvent.loadDotenv],
       Except.error (PyError.attributeError
         "NoneType object has no attribute unicode_string")) := by
  refine ⟨?_, ?_, ?_⟩
  · exact (setup_resolves_endpoint _).1 rfl "http://remote:5000/" rfl
  · exact (setup_resolves_endpoint _).2.1 rfl "http://localhost:5000/" rfl
  · exact (setup_resolves_endpoint
      ⟨none, none, "local", false, false, "templates", "artifacts", none⟩).2.2.2 rfl rfl

/-- In the first-wins resolution, a source preceded only by sources that do
not define the key supplies the resolved value. -/
theorem resolveSetting_first (vals : SettingsSource → String → Option String)
    (key : String) (v : String) (pre : List SettingsSource) (s : SettingsSource)
    (rest : List SettingsSource)
    (hpre : ∀ t ∈ pre, vals t key = none) (hs : vals s key = some v) :
    resolveSetting (pre ++ s :: rest) vals key = some v := by
  induction pre with
  | nil => simp [resolveSetting, hs]
  | cons q qs ih =>
    have hq : vals q key = none := hpre q (by simp)
    have hqs : ∀ t ∈ qs, vals t key = none := fun t ht => hpre t (by simp [ht])
    simp [resolveSetting, hq, ih hqs]

/-- C3: `settings_customise_sources` returns the sources in the fixed order
init, environment, dotenv, file-secrets; a YAML source is appended last
exactly when the model config declares a (truthy) `yaml_file` path; and under
first-wins resolution a key defined by an earlier source of the tuple is
resolved from it, whatever the later sources define. -/
theorem settings_sources_order_and_precedence (model_config : SettingsConfigDict) :
    ((settings_customise_sources model_config).take 4 =
      [SettingsSource.initSettings, SettingsSource.envSettings,
       SettingsSource.dotenvSettings, SettingsSource.fileSecretSettings]) ∧
    (∀ yaml_path, model_config.yaml_file = some yaml_path → yaml_path ≠ "" →
      settings_customise_sources model_config =
        [SettingsSource.initSettings, SettingsSource.envSettings,
         SettingsSource.dotenvSettings, SettingsSource.fileSecretSettings,
         SettingsSource.yamlSettings yaml_path
           (model_config.yaml_file_encoding.getD "utf-8")]) ∧
    ((model_config.yaml_file = none ∨ model_config.yaml_file = some "") →
      settings_customise_sources model_config =
        [SettingsSource.initSettings, SettingsSource.envSettings,
         SettingsSource.dotenvSettings, SettingsSource.fileSecretSettings]) ∧
    (∀ (vals : SettingsSource → String → Option String) (key v : String)
       (pre : List SettingsSource) (s : SettingsSource) (rest : List SettingsSource),
      settings_customise_sources model_config = pre ++ s :: rest →
      (∀ t ∈ pre, vals t key = none) → vals s key = some v →
      resolveSetting (settings_customise_sources model_config) vals key = some v) := by
  refine ⟨?_, ?_, ?_, ?_⟩
  · rcases h : model_config.yaml_file with _ | p
    · simp [settings_customise_sources, h]
    · by_cases hp : p = "" <;> simp [settings_customise_sources, h, hp]
  · intro yaml_path hy hne
    simp [settings_customise_sources, hy, hne]
  · intro h
    rcases h with h | h <;> simp [settings_customise_sources, h]
  · intro vals key v pre s rest hsplit hpre hs
    rw [hsplit]
    exact resolveSetting_first vals key v pre s rest hpre hs

/-- Witness for C3 at the `GlobalConfig` model config: the YAML source is
appended last, and a key defined by both the environment source and the YAML
source resolves to the environment value. -/
theorem settings_sources_order_and_precedence_witness :
    settings_customise_sources ⟨some "configs/global.yaml", some "utf-8"⟩ =
      [SettingsSource.initSettings, SettingsSource.envSettings,
       SettingsSource.dotenvSettings, SettingsSource.fileSecretSettings,
       SettingsSource.yamlSettings "configs/global.yaml" "utf-8"] ∧
    resolveSetting (settings_customise_sources ⟨some "configs/global.yaml", some "utf-8"⟩)
      envYamlVals "log_level" = some "INFO" := by
  refine ⟨?_, ?_⟩
  · exact (settings_sources_order_and_precedence ⟨some "configs/global.yaml", some "utf-8"⟩).2.1
      "configs/global.yaml" rfl (by decide)
  · exact (settings_sources_order_and_precedence ⟨some "configs/global.yaml", some "utf-8"⟩).2.2.2
      envYamlVals "log_level" "INFO"
      [SettingsSource.initSettings] SettingsSource.envSettings
      [SettingsSource.dotenvSettings, SettingsSource.fileSecretSettings,
       SettingsSource.yamlSettings "configs/global.yaml" "utf-8"]
      (by decide) (by decide) (by decide)

/-- C9: constructing the config provider a second time in the same process
returns the identical cached instance — the same object identity, carrying
the same `GlobalConfig` and `MlflowLoggerConfig` objects — and leaves the
process state unchanged, so nothing is ever recreated. -/
theorem config_provider_singleton_identity (s0 : SingletonState) (h : s0.cached = none) :
    (constructProvider (constructProvider s0).2).1 = (constructProvider s0).1 ∧
    (constructProvider (constructProvider s0).2).2 = (constructProvider s0).2 := by
  simp [constructProvider, h]

/-- Witness for C9 starting from the fresh process state. -/
theorem config_provider_singleton_identity_witness :
    (constructProvider (constructProvider ⟨none, 0⟩).2).1 = (constructProvider ⟨none, 0⟩).1 ∧
    (constructProvider (constructProvider ⟨none, 0⟩).2).2 = (constructProvider ⟨none, 0⟩).2 :=
  config_provider_singleton_identity ⟨none, 0⟩ rfl
